import Mathlib

/-!
Shallow embedding of the Load Integrity & Event/Export Workflow of the
dental-leads-etl repository: the validation-rule engine
(src/ops/validate_load.py), the snapshot-diff event detector
(src/events/license_events.py), and the export queue / quarantine subsystem
(src/ops/export_queue.py, src/ops/quarantine_load.py).

Python dictionaries become structures, the JSON stores become Lean lists,
ISO timestamps in the queue/registry are modelled as natural numbers
(`now`), and each call to datetime.now() inside one operation is the single
`now` argument of that operation.  Fallible external calls (destination
APIs) are modelled by a boolean oracle argument.  Definitions come first,
then the theorems about them.
-/

namespace DentalLeads

/-! ## Validation engine (src/ops/validate_load.py) -/

/-- Severity of a validation rule result ('error' or 'warning'). -/
inductive Severity
  | error
  | warning
deriving DecidableEq, Repr

/-- Result of a single validation rule (dataclass ValidationResult,
validate_load.py lines 26-33; the free-form `details` payload is not
modelled). -/
structure ValidationResult where
  rule_name : String
  passed : Bool
  severity : Severity
  message : String
deriving DecidableEq, Repr

/-- How the dispatch of one configured rule inside `validate_load`
(lines 406-438) goes: the rule name is unknown (`getattr` returns None),
the rule function raises an exception with the given message, or it
returns a ValidationResult. -/
inductive RuleExec
  | unknown
  | raised (msg : String)
  | ok (r : ValidationResult)
deriving DecidableEq, Repr

/-- One configured rule of a source type together with how its execution
went on the dataset under validation. -/
structure RuleStep where
  name : String
  exec : RuleExec
deriving DecidableEq, Repr

/-- The ValidationResult appended for an unknown rule name
(validate_load.py lines 409-414). -/
def unknown_rule_result (name : String) : ValidationResult :=
  { rule_name := name
    passed := false
    severity := .warning
    message := "Unknown rule: " ++ name }

/-- The ValidationResult an exception inside a rule is converted into
(validate_load.py lines 432-438). -/
def raised_rule_result (name msg : String) : ValidationResult :=
  { rule_name := name
    passed := false
    severity := .error
    message := "Rule execution failed: " ++ msg }

/-- The effective ValidationResult of one rule step: unknown names and
raised exceptions are converted as in the source. -/
def step_result (s : RuleStep) : ValidationResult :=
  match s.exec with
  | .unknown => unknown_rule_result s.name
  | .raised msg => raised_rule_result s.name msg
  | .ok r => r

/-- The (errors, warnings) contribution of one rule step, following the
loop body of `validate_load` (lines 406-438): unknown rules append a
warning; raised exceptions append an error; a returned result goes to
errors when it failed with severity 'error', to warnings when it failed
with severity 'warning' or passed with severity 'warning', and nowhere
when it passed with severity 'error'. -/
def process_step (s : RuleStep) : List ValidationResult × List ValidationResult :=
  match s.exec with
  | .unknown => ([], [unknown_rule_result s.name])
  | .raised msg => ([raised_rule_result s.name msg], [])
  | .ok r =>
    if !r.passed then
      if r.severity = .error then ([r], []) else ([], [r])
    else if r.severity = .warning then ([], [r])
    else ([], [])

/-- The rule loop of `validate_load` (lines 402-438): accumulated
(errors, warnings) over all configured rules, in order. -/
def run_rules : List RuleStep → List ValidationResult × List ValidationResult
  | [] => ([], [])
  | s :: rest =>
    let first := process_step s
    let later := run_rules rest
    (first.1 ++ later.1, first.2 ++ later.2)

/-- Overall pass/fail of `validate_load` (line 441):
`passed = len(errors) == 0`. -/
def load_passed (steps : List RuleStep) : Bool :=
  ((run_rules steps).1).isEmpty

/-! ## Export queue (src/ops/export_queue.py) -/

/-- Status of an ExportRecord.  The source stores the strings 'queued',
'approved', 'scheduled', 'sent', 'failed', 'cancelled'. -/
inductive Status
  | queued
  | approved
  | scheduled
  | sent
  | failed
  | cancelled
deriving DecidableEq, Repr, Fintype

/-- Configuration for an export destination (dataclass DestinationConfig,
export_queue.py lines 40-51).  `cost_per_record` is a Python float used
only for the history ledger; it is modelled as a rational. -/
structure DestinationConfig where
  name : String
  display_name : String
  cost_per_record : ℚ
  is_reversible : Bool
  auto_approve : Bool
  min_confidence_for_auto : Int
  delay_hours : Nat
  rate_limit_per_hour : Option Nat := none
  rate_limit_per_day : Option Nat := none
deriving DecidableEq, Repr

/-- The static DESTINATIONS policy table (export_queue.py lines 54-101). -/
def DESTINATIONS : List (String × DestinationConfig) :=
  [ ("ghl",
     { name := "ghl", display_name := "GoHighLevel CRM", cost_per_record := 0,
       is_reversible := true, auto_approve := true,
       min_confidence_for_auto := 70, delay_hours := 0 }),
    ("instantly",
     { name := "instantly", display_name := "Instantly (Cold Email)",
       cost_per_record := 1/100, is_reversible := false, auto_approve := true,
       min_confidence_for_auto := 85, delay_hours := 0,
       rate_limit_per_day := some 500 }),
    ("lob_postcard",
     { name := "lob_postcard", display_name := "Lob Postcard",
       cost_per_record := 1/2, is_reversible := true, auto_approve := false,
       min_confidence_for_auto := 95, delay_hours := 24 }),
    ("lob_letter",
     { name := "lob_letter", display_name := "Lob Letter",
       cost_per_record := 3/2, is_reversible := true, auto_approve := false,
       min_confidence_for_auto := 95, delay_hours := 48 }),
    ("webhook",
     { name := "webhook", display_name := "Custom Webhook",
       cost_per_record := 0, is_reversible := false, auto_approve := true,
       min_confidence_for_auto := 70, delay_hours := 0 }) ]

/-- One candidate input record handed to `add_to_queue` (a Python dict;
only the keys the queue reads are modelled).  `match_confidence` models
`record.get('match_confidence', 0)`. -/
structure Rec where
  provider_id : Option String := none
  email : String := ""
  license_number : Option String := none
  npi_number : Option String := none
  match_confidence : Int := 0
deriving DecidableEq, Repr

/-- One entry of the suppression list (a Python dict with optional keys;
`is_active` models `supp.get('is_active', True)`). -/
structure Suppression where
  email : Option String := none
  license_number : Option String := none
  npi : Option String := none
  destination : Option String := none
  is_active : Bool := true
deriving DecidableEq, Repr

/-- Python truthiness of an optional string: absent and the empty string
are falsy. -/
def opt_truthy : Option String → Bool
  | none => false
  | some s => !(s = "")

/-- `ExportQueue._is_suppressed` (export_queue.py lines 132-147). -/
def is_suppressed (suppressions : List Suppression) (r : Rec)
    (destination : String) : Bool :=
  suppressions.any fun supp =>
    if !supp.is_active then false
    else if opt_truthy supp.destination && !(supp.destination = some destination) then false
    else
      (opt_truthy supp.email &&
        ((supp.email.getD "").toLower = r.email.toLower)) ||
      (opt_truthy supp.license_number &&
        (supp.license_number = r.license_number)) ||
      (opt_truthy supp.npi && (supp.npi = r.npi_number))

/-- One ExportRecord (the dict built at export_queue.py lines 208-223 plus
the fields later operations add).  Timestamps are naturals. -/
structure Export where
  export_id : String
  provider_id : String
  destination : String
  payload : Rec
  data_load_id : Option String
  match_confidence : Int
  requires_approval : Bool
  status : Status
  approved_at : Option Nat
  approved_by : Option String
  scheduled_send_at : Option Nat
  queued_at : Nat
  created_at : Nat
  updated_at : Nat
  sent_at : Option Nat := none
  external_id : Option String := none
  error_message : Option String := none
  reversed_at : Option Nat := none
  reversal_reason : Option String := none
deriving DecidableEq, Repr

/-- `ExportQueue._generate_export_id` (lines 128-130) hashes
"provider-destination-now" with md5; the hash input itself stands in for
the digest. -/
def generate_export_id (provider_id destination : String) (now : Nat) : String :=
  provider_id ++ "-" ++ destination ++ "-" ++ toString now

/-- Statuses counted as active for the in-queue duplicate check
(export_queue.py line 188) and for quarantine cancellation
(quarantine_load.py line 273). -/
def is_active_status (s : Status) : Bool :=
  s = .queued || s = .approved || s = .scheduled

/-- The duplicate check of `add_to_queue` (lines 186-188): an active
record already exists for this (provider_id, destination) pair. -/
def has_active_dup (queue : List Export) (provider_id destination : String) : Bool :=
  queue.any fun e =>
    e.provider_id = provider_id && e.destination = destination &&
      is_active_status e.status

/-- The auto-approval decision of `add_to_queue` (lines 197-200). -/
def auto_approve_decision (config : DestinationConfig) (r : Rec) : Bool :=
  config.auto_approve && (config.min_confidence_for_auto ≤ r.match_confidence)

/-- The export record built for an accepted candidate
(export_queue.py lines 202-223). -/
def make_export (config : DestinationConfig) (destination : String)
    (load_id : Option String) (now : Nat) (r : Rec) (provider_id : String) :
    Export :=
  { export_id := generate_export_id provider_id destination now
    provider_id := provider_id
    destination := destination
    payload := r
    data_load_id := load_id
    match_confidence := r.match_confidence
    requires_approval := !auto_approve_decision config r
    status := if auto_approve_decision config r then .approved else .queued
    approved_at := if auto_approve_decision config r then some now else none
    approved_by := if auto_approve_decision config r then some "auto" else none
    scheduled_send_at :=
      if 0 < config.delay_hours then some (now + config.delay_hours) else none
    queued_at := now
    created_at := now
    updated_at := now }

/-- The per-call counters returned by `add_to_queue` (lines 167-172). -/
structure Counts where
  queued : Nat := 0
  auto_approved : Nat := 0
  suppressed : Nat := 0
  skipped : Nat := 0
deriving DecidableEq, Repr

/-- The body of the per-record loop of `add_to_queue`
(export_queue.py lines 174-228), threading the growing queue and the
counters.  A missing or empty provider_id is skipped (`if not provider_id`). -/
def add_record (suppressions : List Suppression) (config : DestinationConfig)
    (destination : String) (load_id : Option String) (now : Nat)
    (acc : List Export × Counts) (r : Rec) : List Export × Counts :=
  let queue := acc.1
  let counts := acc.2
  match r.provider_id with
  | none => (queue, { counts with skipped := counts.skipped + 1 })
  | some pid =>
    if pid = "" then
      (queue, { counts with skipped := counts.skipped + 1 })
    else if is_suppressed suppressions r destination then
      (queue, { counts with suppressed := counts.suppressed + 1 })
    else if has_active_dup queue pid destination then
      (queue, { counts with skipped := counts.skipped + 1 })
    else
      (queue ++ [make_export config destination load_id now r pid],
       { counts with
          queued := counts.queued + 1
          auto_approved := counts.auto_approved +
            (if auto_approve_decision config r then 1 else 0) })

/-- `ExportQueue.add_to_queue` (export_queue.py lines 149-231).  An
unknown destination raises ValueError (line 161-162), modelled as
`Except.error`. -/
def add_to_queue (queue : List Export) (suppressions : List Suppression)
    (records : List Rec) (destination : String) (load_id : Option String)
    (now : Nat) : Except String (List Export × Counts) :=
  match DESTINATIONS.lookup destination with
  | none => .error ("Unknown destination: " ++ destination)
  | some config =>
    .ok (records.foldl (add_record suppressions config destination load_id now)
          (queue, {}))

/-- Whether `approve_exports` (export_queue.py lines 266-298) selects an
export for approval.  A non-empty `export_ids` list and a truthy
`destination` act as filters, mirroring Python truthiness of the
arguments. -/
def approve_hits (export_ids : Option (List String))
    (destination : Option String) (min_confidence : Int) (e : Export) : Bool :=
  if !(e.status = .queued) then false
  else if (match export_ids with
           | none => false
           | some l => !l.isEmpty) && !(export_ids.getD []).contains e.export_id then false
  else if opt_truthy destination && !(destination = some e.destination) then false
  else if e.match_confidence < min_confidence then false
  else true

/-- `ExportQueue.approve_exports` (lines 266-301): bulk-transition
matching queued exports to approved, returning the new queue and the
approved count. -/
def approve_exports (queue : List Export) (export_ids : Option (List String))
    (destination : Option String) (min_confidence : Int) (approver : String)
    (now : Nat) : List Export × Nat :=
  (queue.map fun e =>
     if approve_hits export_ids destination min_confidence e then
       { e with status := .approved, approved_at := some now,
                approved_by := some approver, updated_at := now }
     else e,
   queue.countP fun e => approve_hits export_ids destination min_confidence e)

/-- Update the first record with the given export_id (the find-and-break
pattern of `update_export` / `record_sent`). -/
def update_first (queue : List Export) (export_id : String)
    (f : Export → Export) : List Export :=
  match queue with
  | [] => []
  | e :: rest =>
    if e.export_id = export_id then f e :: rest
    else e :: update_first rest export_id f

/-- One entry of the history (sent-ledger) collection appended by
`record_sent` (export_queue.py lines 328-338). -/
structure HistEntry where
  history_id : String
  export_id : String
  provider_id : String
  destination : String
  payload : Rec
  sent_at : Nat
  external_id : Option String
  estimated_cost : ℚ
deriving DecidableEq, Repr

/-- The history entry built for a successful send; `history_id` stands in
for md5 of "exportid-sent". -/
def sent_history_entry (e : Export) (external_id : Option String)
    (now : Nat) : HistEntry :=
  { history_id := e.export_id ++ "-sent"
    export_id := e.export_id
    provider_id := e.provider_id
    destination := e.destination
    payload := e.payload
    sent_at := now
    external_id := external_id
    estimated_cost :=
      match DESTINATIONS.lookup e.destination with
      | some c => c.cost_per_record
      | none => 0 }

/-- `ExportQueue.record_sent` (export_queue.py lines 313-344): the first
export with the given id becomes failed (truthy error) or sent; a
successful send also appends a history entry.  Returns the new queue and
history. -/
def record_sent (queue : List Export) (history : List HistEntry)
    (export_id : String) (external_id : Option String)
    (error : Option String) (now : Nat) : List Export × List HistEntry :=
  match queue with
  | [] => ([], history)
  | e :: rest =>
    if e.export_id = export_id then
      if opt_truthy error then
        ({ e with status := .failed, error_message := error,
                  updated_at := now } :: rest, history)
      else
        ({ e with status := .sent, sent_at := some now,
                  external_id := external_id, updated_at := now } :: rest,
         history ++ [sent_history_entry e external_id now])
    else
      let later := record_sent rest history export_id external_id error now
      (e :: later.1, later.2)

/-! ## Quarantine / rollback (src/ops/quarantine_load.py) -/

/-- Per-destination handler configuration (the dicts passed to the
handlers at quarantine_load.py lines 147-153). -/
structure HandlerCfg where
  is_reversible : Bool
deriving DecidableEq, Repr

/-- The DESTINATION_HANDLERS table (quarantine_load.py lines 147-153). -/
def DESTINATION_HANDLERS : List (String × HandlerCfg) :=
  [ ("ghl", { is_reversible := true }),
    ("webhook", { is_reversible := false }),
    ("instantly", { is_reversible := false }),
    ("lob_postcard", { is_reversible := true }),
    ("lob_letter", { is_reversible := true }) ]

/-- A handler's `reverse_export` for a reversible destination (GHLHandler
lines 63-90, LobHandler lines 117-144): a missing external_id fails
immediately; otherwise the outcome of the external delete call is given
by the oracle. -/
def attempt_reverse (oracle : Export → Bool) (e : Export) : Bool :=
  match e.external_id with
  | none => false
  | some _ => oracle e

/-- One entry of the reversal_failures list (quarantine_load.py
lines 309-313 and 327-331). -/
structure ReversalFailure where
  export_id : String
  destination : String
  reason : String
deriving DecidableEq, Repr

/-- Result of the quarantine operation (dataclass QuarantineResult,
quarantine_load.py lines 25-34). -/
structure QuarantineResult where
  load_id : String
  quarantined_at : Nat
  reason : String
  exports_cancelled : Nat
  exports_reversed : Nat
  exports_failed_reversal : Nat
  reversal_failures : List ReversalFailure
deriving DecidableEq, Repr

/-- One entry of the Loads collection (the dicts in loads.json; only the
fields quarantine reads or writes are modelled). -/
structure LoadRec where
  load_id : String
  status : String := "pending"
  quarantined_at : Option Nat := none
  quarantine_reason : Option String := none
  exports_cancelled : Option Nat := none
  exports_reversed : Option Nat := none
  created_at : Option Nat := none
  updated_at : Option Nat := none
deriving DecidableEq, Repr

/-- `LoadRegistry.update_load` (quarantine_load.py lines 186-193): apply
`f` to the first load with the given id. -/
def update_load (loads : List LoadRec) (load_id : String)
    (f : LoadRec → LoadRec) (now : Nat) : List LoadRec :=
  match loads with
  | [] => []
  | l :: rest =>
    if l.load_id = load_id then { f l with updated_at := some now } :: rest
    else l :: update_load rest load_id f now

/-- `LoadRegistry.get_exports_for_load` (lines 204-209) with a status
filter. -/
def exports_for_load (exports : List Export) (load_id : String)
    (status : Status) : List Export :=
  exports.filter fun e => e.data_load_id = some load_id && e.status = status

/-- The update applied to each cancelled pending export
(quarantine_load.py lines 281-284). -/
def cancel_update (reason : String) (now : Nat) (e : Export) : Export :=
  { e with status := .cancelled,
           error_message := some ("Source load quarantined: " ++ reason),
           updated_at := now }

/-- The cancel-pending-exports phase of `quarantine_load`
(lines 272-288): for each status in [queued, approved, scheduled], take a
snapshot of the matching exports, then cancel each by export_id
(first-match update, as `update_export` does). -/
def cancel_phase (exports : List Export) (load_id reason : String)
    (now : Nat) : List Export × Nat :=
  [Status.queued, Status.approved, Status.scheduled].foldl
    (fun acc st =>
      let pending := exports_for_load acc.1 load_id st
      pending.foldl
        (fun acc2 e =>
          (update_first acc2.1 e.export_id (cancel_update reason now),
           acc2.2 + 1))
        acc)
    (exports, 0)

/-- The update applied to a successfully reversed export
(quarantine_load.py lines 320-323). -/
def reversal_update (reason : String) (now : Nat) (e : Export) : Export :=
  { e with reversed_at := some now,
           reversal_reason := some ("Source load quarantined: " ++ reason),
           updated_at := now }

/-- The body of the reversal loop of `quarantine_load` (lines 299-332),
processing one sent export: a destination without a handler is skipped,
a non-reversible handler records a failure, otherwise the reversal is
attempted and either stamped or recorded as failed. -/
def reverse_step (reason : String) (oracle : Export → Bool) (now : Nat)
    (acc : List Export × Nat × List ReversalFailure) (e : Export) :
    List Export × Nat × List ReversalFailure :=
  match DESTINATION_HANDLERS.lookup e.destination with
  | none => acc
  | some h =>
    if !h.is_reversible then
      (acc.1, acc.2.1,
       acc.2.2 ++ [{ export_id := e.export_id, destination := e.destination,
                     reason := "Destination does not support reversal" }])
    else if attempt_reverse oracle e then
      (update_first acc.1 e.export_id (reversal_update reason now),
       acc.2.1 + 1, acc.2.2)
    else
      (acc.1, acc.2.1,
       acc.2.2 ++ [{ export_id := e.export_id, destination := e.destination,
                     reason := "Reversal failed" }])

/-- The reverse-sent-exports phase of `quarantine_load` (lines 294-334):
iterate a snapshot of the load's sent exports with `reverse_step`. -/
def reverse_phase (exports : List Export) (load_id reason : String)
    (oracle : Export → Bool) (now : Nat) :
    List Export × Nat × List ReversalFailure :=
  let sent_exports := exports_for_load exports load_id .sent
  sent_exports.foldl (reverse_step reason oracle now) (exports, 0, [])

/-- `quarantine_load` (quarantine_load.py lines 229-350): mark the load
quarantined (registering it if absent), cancel its pending exports,
optionally reverse its sent exports, and write the counts back to the
load.  Returns the new loads collection, the new exports collection, and
the QuarantineResult. -/
def quarantine_load (loads : List LoadRec) (exports : List Export)
    (load_id reason : String) (reverse_exports : Bool)
    (oracle : Export → Bool) (now : Nat) :
    List LoadRec × List Export × QuarantineResult :=
  let found := loads.any fun l => l.load_id = load_id
  let loads1 :=
    if found then
      update_load loads load_id
        (fun l => { l with status := "quarantined",
                           quarantined_at := some now,
                           quarantine_reason := some reason }) now
    else
      loads ++ [{ load_id := load_id, status := "quarantined",
                  quarantined_at := some now,
                  quarantine_reason := some reason,
                  created_at := some now, updated_at := some now }]
  let cancelled := cancel_phase exports load_id reason now
  let rev :=
    if reverse_exports then
      reverse_phase cancelled.1 load_id reason oracle now
    else (cancelled.1, 0, [])
  let loads2 :=
    update_load loads1 load_id
      (fun l => { l with exports_cancelled := some cancelled.2,
                         exports_reversed := some rev.2.1 }) now
  (loads2, rev.1,
   { load_id := load_id
     quarantined_at := now
     reason := reason
     exports_cancelled := cancelled.2
     exports_reversed := rev.2.1
     exports_failed_reversal := rev.2.2.length
     reversal_failures := rev.2.2 })

/-! ## Event detector (src/events/license_events.py) -/

/-- One row of a Texas license snapshot, read with `pd.read_csv(dtype=str)`:
every cell is an optional string (NaN becomes `none`).  `LIC_ID` is the
registry's stable row identifier present in the raw CSV (see the comment
at validate_load.py line 305); the detector itself only reads the columns
listed in license_events.py. -/
structure TexasRow where
  LIC_ID : Option String := none
  LIC_NBR : Option String := none
  LIC_STA_CDE : Option String := none
  LIC_STA_DESC : Option String := none
  FIRST_NME : Option String := none
  LAST_NME : Option String := none
  LAST_MNE : Option String := none
  CITY : Option String := none
  COUNTY : Option String := none
  ZIP : Option String := none
deriving DecidableEq, Repr

/-- A detected license change event (dataclass LicenseEvent,
license_events.py lines 39-57).  `raw_data` keeps the source row for
NEW_LICENSE events and is empty (`none`) for status-change events. -/
structure LicenseEvent where
  event_id : String
  event_type : String
  timestamp : String
  state_code : String
  professional_type : String
  license_number : String
  first_name : String
  last_name : String
  city : Option String
  county : Option String
  zip_code : Option String
  previous_value : Option String
  current_value : Option String
  priority : String
  marketing_action : String
  raw_data : Option TexasRow
deriving DecidableEq, Repr

/-- Status codes that mean "active" (license_events.py line 69). -/
def ACTIVE_STATUSES : List Int := [20, 46, 70]

/-- Status codes that mean "lapsed" (license_events.py line 72). -/
def LAPSED_STATUSES : List Int := [45, 48, 60]

/-- Decimal value of a digit string, `none` on any non-digit
character. -/
def parse_nat : List Char → Nat → Option Nat
  | [], acc => some acc
  | c :: cs, acc =>
    if c.isDigit then parse_nat cs (acc * 10 + (c.toNat - '0'.toNat))
    else none

/-- `int(row.get("LIC_STA_CDE", 0) or 0)`: the status cell parsed as a
decimal number; an empty cell is falsy and gives 0.  On a missing (NaN,
which is truthy) or non-numeric cell Python's `int()` raises ValueError
and aborts the whole detection run; this model totalises that crash
path to 0, so the theorems describe the runs that complete. -/
def parse_status (cell : Option String) : Int :=
  match cell with
  | none => 0
  | some s =>
    match parse_nat s.data 0 with
    | some n => (n : Int)
    | none => 0

/-- The license numbers of a snapshot
(`set(df["LIC_NBR"].dropna().astype(str))`), as a list used only for
membership. -/
def lic_nbrs (df : List TexasRow) : List String :=
  df.filterMap fun r => r.LIC_NBR

/-- Drop leading and trailing whitespace of a character list. -/
def strip_chars (cs : List Char) : List Char :=
  ((cs.dropWhile Char.isWhitespace).reverse.dropWhile Char.isWhitespace).reverse

/-- `str(x)` of a cell: a pandas missing value (the float NaN) prints
as "nan". -/
def py_str (cell : Option String) : String :=
  match cell with
  | none => "nan"
  | some s => s

/-- `str(x).strip()` of a cell; a missing (NaN) cell yields "nan". -/
def cell_strip (cell : Option String) : String :=
  String.mk (strip_chars (py_str cell).data)

/-- `value.strip() or None`: the stripped cell, with the empty string
becoming `none`. -/
def cell_opt (cell : Option String) : Option String :=
  let s := cell_strip cell
  if s = "" then none else some s

/-- The event built for one new active license
(license_events.py lines 141-158).  The event_id uses `timestamp[:10]`,
the calendar date of `datetime.now()` at the start of the detection
run.  In `row.get("LAST_NME", "") or row.get("LAST_MNE", "")` a NaN
LAST_NME cell is truthy and stringifies to "nan" with no fallback; only
an empty string falls through to LAST_MNE (a column absent from the
frame, which `get` defaults to "", is not distinguished from a NaN
cell here). -/
def new_license_event (professional_type timestamp : String)
    (row : TexasRow) : LicenseEvent :=
  { event_id := "NEW_" ++ py_str row.LIC_NBR ++ "_" ++ (timestamp.take 10)
    event_type := "NEW_LICENSE"
    timestamp := timestamp
    state_code := "TX"
    professional_type := professional_type
    license_number := py_str row.LIC_NBR
    first_name := cell_strip row.FIRST_NME
    last_name :=
      String.mk (strip_chars
        (match row.LAST_NME with
         | none => "nan"
         | some s => if s = "" then py_str row.LAST_MNE else s).data)
    city := cell_opt row.CITY
    county := cell_opt row.COUNTY
    zip_code := cell_opt (some ((cell_strip row.ZIP).take 5))
    previous_value := none
    current_value := some (py_str row.LIC_STA_DESC)
    priority := "HIGH"
    marketing_action := "onboarding_sequence"
    raw_data := some row }

/-- `TexasEventDetector.detect_new_licenses` (license_events.py
lines 111-161): license numbers in current but not in previous, with
rows whose status is not in the active set dropped. -/
def detect_new_licenses (current_df previous_df : List TexasRow)
    (professional_type timestamp : String) : List LicenseEvent :=
  let current_licenses := lic_nbrs current_df
  let previous_licenses := lic_nbrs previous_df
  let new_licenses := current_licenses.filter
    fun v => !previous_licenses.contains v
  let new_df := current_df.filter fun r =>
    match r.LIC_NBR with
    | some v => new_licenses.contains v
    | none => false
  (new_df.filter fun r => ACTIVE_STATUSES.contains (parse_status r.LIC_STA_CDE)).map
    (new_license_event professional_type timestamp)

/-- The inner merge of previous and current on "LIC_NBR"
(license_events.py lines 176-183): pandas keeps left (previous) row
order and pairs each row with the matching current rows.  Unlike SQL,
`pd.merge` treats NaN join keys as equal to each other, so rows with a
missing license number on the two sides cross-join; this is modelled by
plain `Option` equality (`none = none` matches). -/
def merge_on_lic_nbr (previous_df current_df : List TexasRow) :
    List (TexasRow × TexasRow) :=
  previous_df.flatMap fun p =>
    (current_df.filter fun c => p.LIC_NBR = c.LIC_NBR).map
      fun c => (p, c)

/-- The event built for one status transition (license_events.py
lines 206-224 for LAPSED, 228-245 for REINSTATED). -/
def status_change_event (event_type priority marketing_action : String)
    (professional_type timestamp : String) (p c : TexasRow) : LicenseEvent :=
  { event_id := event_type ++ "_" ++ py_str c.LIC_NBR ++ "_" ++ (timestamp.take 10)
    event_type := event_type
    timestamp := timestamp
    state_code := "TX"
    professional_type := professional_type
    license_number := py_str c.LIC_NBR
    first_name := cell_strip c.FIRST_NME
    last_name := cell_strip c.LAST_NME
    city := cell_opt c.CITY
    county := cell_opt c.COUNTY
    zip_code := cell_opt (some ((cell_strip c.ZIP).take 5))
    previous_value := some (py_str p.LIC_STA_DESC)
    current_value := some (py_str c.LIC_STA_DESC)
    priority := priority
    marketing_action := marketing_action
    raw_data := none }

/-- `TexasEventDetector.detect_status_changes` (license_events.py
lines 163-248): join the snapshots on LIC_NBR and classify
active-to-lapsed as LAPSED and lapsed-to-active as REINSTATED; every
other change is ignored. -/
def detect_status_changes (current_df previous_df : List TexasRow)
    (professional_type timestamp : String) : List LicenseEvent :=
  (merge_on_lic_nbr previous_df current_df).filterMap fun pc =>
    let prev_status := parse_status pc.1.LIC_STA_CDE
    let curr_status := parse_status pc.2.LIC_STA_CDE
    if prev_status = curr_status then none
    else if ACTIVE_STATUSES.contains prev_status &&
            LAPSED_STATUSES.contains curr_status then
      some (status_change_event "LAPSED" "MEDIUM" "suppress_or_winback"
              professional_type timestamp pc.1 pc.2)
    else if LAPSED_STATUSES.contains prev_status &&
            ACTIVE_STATUSES.contains curr_status then
      some (status_change_event "REINSTATED" "HIGH" "reengagement_sequence"
              professional_type timestamp pc.1 pc.2)
    else none

/-- Event detection for one professional type on a fixed snapshot pair:
the NEW_LICENSE pass followed by the status-change pass, as
`detect_all_events` runs them (license_events.py lines 288-297). -/
def detect_events (current_df previous_df : List TexasRow)
    (professional_type timestamp : String) : List LicenseEvent :=
  detect_new_licenses current_df previous_df professional_type timestamp ++
    detect_status_changes current_df previous_df professional_type timestamp

/-- The event_ids of a detection run. -/
def event_ids (events : List LicenseEvent) : List String :=
  events.map fun e => e.event_id

/-! ## The queue as a state machine: reachability and invariants -/

/-- Two ExportRecords collide when both are active for the same
(provider_id, destination) pair. -/
def active_conflict (a b : Export) : Prop :=
  is_active_status a.status = true ∧ is_active_status b.status = true ∧
    a.provider_id = b.provider_id ∧ a.destination = b.destination

instance (a b : Export) : Decidable (active_conflict a b) := by
  rw [active_conflict]; infer_instance

/-- The dedup invariant: no two active records for the same
(provider_id, destination) pair. -/
def NoActiveDup (q : List Export) : Prop :=
  q.Pairwise fun a b => ¬active_conflict a b

/-- Status transitions the exposed operations actually make: unchanged,
queued→approved (approval), or an overwrite to cancelled, sent or
failed. -/
def status_step_ok (old new : Status) : Prop :=
  old = new ∨ (old = .queued ∧ new = .approved) ∨
    new = .cancelled ∨ new = .sent ∨ new = .failed

instance (old new : Status) : Decidable (status_step_ok old new) := by
  rw [status_step_ok]; infer_instance

/-- How one operation may change one existing record: identity fields
are kept and the status moves along `status_step_ok`. -/
def evolves (old new : Export) : Prop :=
  new.provider_id = old.provider_id ∧ new.destination = old.destination ∧
    status_step_ok old.status new.status

/-- One invocation of an exposed queue operation
(`add_to_queue`, `approve_exports`, `record_sent`, or `quarantine_load`
acting on the exports collection). -/
inductive QueueStep : List Export → List Export → Prop
  | add (q : List Export) (suppressions : List Suppression)
      (records : List Rec) (destination : String) (load_id : Option String)
      (now : Nat) (q' : List Export) (c : Counts)
      (h : add_to_queue q suppressions records destination load_id now =
        Except.ok (q', c)) :
      QueueStep q q'
  | approve (q : List Export) (export_ids : Option (List String))
      (destination : Option String) (min_confidence : Int) (approver : String)
      (now : Nat) :
      QueueStep q (approve_exports q export_ids destination min_confidence
        approver now).1
  | send_outcome (q : List Export) (history : List HistEntry)
      (export_id : String) (external_id : Option String)
      (error : Option String) (now : Nat) :
      QueueStep q (record_sent q history export_id external_id error now).1
  | quarantine (loads : List LoadRec) (q : List Export)
      (load_id reason : String) (reverse_exports : Bool)
      (oracle : Export → Bool) (now : Nat) :
      QueueStep q (quarantine_load loads q load_id reason reverse_exports
        oracle now).2.1

/-- Queue states reachable from the empty store through the exposed
operations. -/
inductive ReachableQueue : List Export → Prop
  | empty : ReachableQueue []
  | step {q q' : List Export} (hq : ReachableQueue q) (hs : QueueStep q q') :
      ReachableQueue q'

/-! ## C3: status monotonicity -/

/-- Rank of a status on the queued→approved→scheduled→sent chain. -/
def chain_rank : Status → Option Nat
  | .queued => some 0
  | .approved => some 1
  | .scheduled => some 2
  | .sent => some 3
  | .failed => none
  | .cancelled => none

/-- The transition relation asserted by the claim, stated from the
spec's words for comparison with the code: a status either stays put,
advances strictly forward along the queued→approved→scheduled→sent
chain, or diverts to cancelled/failed. -/
def claimed_status_ok (old new : Status) : Bool :=
  old == new ||
    (match chain_rank old, chain_rank new with
     | some a, some b => decide (a < b)
     | _, _ => false) ||
    new == .cancelled || new == .failed

/-- The single export created by `add_to_queue` on an empty queue for
provider p1 at destination ghl (load L1, time 0). -/
def c3_q1 : List Export :=
  [{ export_id := "p1-ghl-0", provider_id := "p1", destination := "ghl",
     payload := { provider_id := some "p1" }, data_load_id := some "L1",
     match_confidence := 0, requires_approval := true, status := .queued,
     approved_at := none, approved_by := none, scheduled_send_at := none,
     queued_at := 0, created_at := 0, updated_at := 0 }]

/-- The same record after load L1 is quarantined (time 1). -/
def c3_q2 : List Export :=
  [{ export_id := "p1-ghl-0", provider_id := "p1", destination := "ghl",
     payload := { provider_id := some "p1" }, data_load_id := some "L1",
     match_confidence := 0, requires_approval := true, status := .cancelled,
     approved_at := none, approved_by := none, scheduled_send_at := none,
     queued_at := 0, created_at := 0, updated_at := 1,
     error_message := some "Source load quarantined: bad" }]

/-- The same record after `record_sent` is invoked on it (time 2):
the cancelled record is overwritten to sent. -/
def c3_q3 : List Export :=
  [{ export_id := "p1-ghl-0", provider_id := "p1", destination := "ghl",
     payload := { provider_id := some "p1" }, data_load_id := some "L1",
     match_confidence := 0, requires_approval := true, status := .sent,
     approved_at := none, approved_by := none, scheduled_send_at := none,
     queued_at := 0, created_at := 0, updated_at := 2, sent_at := some 2,
     external_id := some "X",
     error_message := some "Source load quarantined: bad" }]

/-! ## C4 and C5: the quarantine cascade -/

/-- A registry export record for the quarantine scenarios (confidence
90, no schedule, timestamps 0). -/
def sample_export (eid pid dest : String) (lid : Option String) (st : Status)
    (ext : Option String) : Export :=
  { export_id := eid, provider_id := pid, destination := dest, payload := {},
    data_load_id := lid, match_confidence := 90, requires_approval := false,
    status := st, approved_at := none, approved_by := none,
    scheduled_send_at := none, queued_at := 0, created_at := 0, updated_at := 0,
    external_id := ext }

/-- Load L1 with 3 queued, 2 approved and 1 sent export; the sent one
goes to `dest`. -/
def c4_exports (dest : String) : List Export :=
  [ sample_export "e1" "p1" "ghl" (some "L1") .queued none,
    sample_export "e2" "p2" "ghl" (some "L1") .queued none,
    sample_export "e3" "p3" "ghl" (some "L1") .queued none,
    sample_export "e4" "p4" "ghl" (some "L1") .approved none,
    sample_export "e5" "p5" "ghl" (some "L1") .approved none,
    sample_export "e6" "p6" dest (some "L1") .sent (some "X") ]

/-- The sent export of the C5 counterexample: its destination has no
entry in DESTINATION_HANDLERS. -/
def c5_export : Export :=
  sample_export "e9" "p9" "mailchimp" (some "L9") .sent (some "X9")

/-! ## C1 and C6: event detection -/

/-- A one-row current snapshot with a new active license. -/
def c1_current : List TexasRow :=
  [{ LIC_NBR := some "100", LIC_STA_CDE := some "20" }]

/-- The stable identifiers of a snapshot (column LIC_ID). -/
def lic_ids (df : List TexasRow) : List String :=
  df.filterMap fun r => r.LIC_ID

/-- Modelled from the spec: the new-license candidate set computed as
"current.ids − previous.ids" on the stable identifier (LIC_ID), as the
claim asserts the code does. -/
def new_stable_ids (current_df previous_df : List TexasRow) : List String :=
  (lic_ids current_df).filter fun v => !(lic_ids previous_df).contains v

/-- The previous snapshot of the C6 counterexample: person A1 holds
license number 100, status cancelled. -/
def c6_previous : List TexasRow :=
  [{ LIC_ID := some "A1", LIC_NBR := some "100", LIC_STA_CDE := some "60",
     LIC_STA_DESC := some "Cancelled" }]

/-- The current snapshot of the C6 counterexample: a different record
(stable id A2) reuses license number 100 with active status. -/
def c6_current : List TexasRow :=
  [{ LIC_ID := some "A2", LIC_NBR := some "100", LIC_STA_CDE := some "20",
     LIC_STA_DESC := some "Active" }]

/-- Rewrite only the LIC_ID column of a row. -/
def set_lic_id (g : Option String → Option String) (r : TexasRow) : TexasRow :=
  { r with LIC_ID := g r.LIC_ID }

set_option maxHeartbeats 2000000

theorem run_rules_append (a b : List RuleStep) :
    run_rules (a ++ b) =
      ((run_rules a).1 ++ (run_rules b).1, (run_rules a).2 ++ (run_rules b).2) := by
  induction a with
  | nil => simp [run_rules]
  | cons s rest ih => simp [run_rules, ih]

theorem run_rules_errors_eq_filter (steps : List RuleStep) :
    (run_rules steps).1 =
      (steps.map step_result).filter
        (fun r => !r.passed && r.severity = Severity.error) := by
  induction steps with
  | nil => simp [run_rules]
  | cons s rest ih =>
    simp only [run_rules, List.map_cons, List.filter_cons]
    rw [ih]
    cases h : s.exec with
    | unknown =>
      simp [process_step, step_result, h, unknown_rule_result]
    | raised msg =>
      simp [process_step, step_result, h, raised_rule_result]
    | ok r =>
      simp only [process_step, step_result, h]
      by_cases hp : r.passed
      · by_cases hs : r.severity = Severity.warning
        · simp [hp, hs]
        · simp [hp, hs]
      · by_cases hs : r.severity = Severity.error
        · simp [hp, hs]
        · simp [hp, hs]

/-! ## Theorems about the validation engine -/

theorem run_rules_warning_mem (steps : List RuleStep) (r : ValidationResult)
    (hr : r ∈ steps.map step_result) (hp : r.passed = false)
    (hs : r.severity = Severity.warning) : r ∈ (run_rules steps).2 := by
  induction steps with
  | nil => simp at hr
  | cons s rest ih =>
    simp only [List.map_cons, List.mem_cons] at hr
    simp only [run_rules, List.mem_append]
    rcases hr with hr | hr
    · left
      subst hr
      cases h : s.exec with
      | unknown => simp [process_step, h, step_result]
      | raised msg =>
        rw [step_result, h] at hs
        simp [raised_rule_result] at hs
      | ok r0 =>
        have hstep : step_result s = r0 := by simp [step_result, h]
        rw [hstep] at hp hs ⊢
        simp [process_step, h, hp, hs]
    · right
      exact ih hr

/-- C8: for every dataset and known source type (that is, for every list
of configured-rule outcomes the dispatch loop of `validate_load` can
see), the load passes iff no error-severity rule result failed, and a
failing warning-severity result is surfaced in the warnings list but
never makes `passed` false. -/
theorem c8_passed_iff_no_error_failure (steps : List RuleStep) :
    (load_passed steps = true ↔
      ∀ r ∈ steps.map step_result,
        r.severity = Severity.error → r.passed = true) ∧
    (∀ r ∈ steps.map step_result,
      r.passed = false → r.severity = Severity.warning →
        r ∈ (run_rules steps).2) := by
  have hpred : ∀ a : ValidationResult,
      (¬(!a.passed && decide (a.severity = Severity.error)) = true) ↔
        (a.severity = Severity.error → a.passed = true) := by
    intro a
    cases hpa : a.passed <;> by_cases hsa : a.severity = Severity.error <;>
      simp [hpa, hsa]
  constructor
  · rw [load_passed, run_rules_errors_eq_filter, List.isEmpty_iff,
      List.filter_eq_nil_iff]
    constructor
    · intro h r hr
      exact (hpred r).mp (h r hr)
    · intro h r hr
      exact (hpred r).mpr (h r hr)
  · exact fun r hr hp hs => run_rules_warning_mem steps r hr hp hs

/-- C8 witness: a concrete run with one passing error-severity rule and
one unknown rule passes overall, and the unknown-rule warning is
surfaced. -/
theorem c8_passed_iff_no_error_failure_witness :
    load_passed
      [{ name := "row_count_min",
         exec := RuleExec.ok
           { rule_name := "row_count_min", passed := true,
             severity := Severity.error, message := "ok" } },
       { name := "bogus_rule", exec := RuleExec.unknown }] = true ∧
    unknown_rule_result "bogus_rule" ∈
      (run_rules
        [{ name := "row_count_min",
           exec := RuleExec.ok
             { rule_name := "row_count_min", passed := true,
               severity := Severity.error, message := "ok" } },
         { name := "bogus_rule", exec := RuleExec.unknown }]).2 := by
  constructor
  · exact (c8_passed_iff_no_error_failure _).1.mpr (by decide)
  · exact (c8_passed_iff_no_error_failure _).2 _ (by decide) (by decide) (by decide)

/-- C9: a rule whose execution raises is converted into a failed
error-severity result naming the rule and the message, and the rules
before and after it are still evaluated exactly as they would be on
their own — the loop never aborts. -/
theorem c9_raised_rule_caught (pre post : List RuleStep) (name msg : String) :
    (run_rules (pre ++ { name := name, exec := RuleExec.raised msg } :: post)).1 =
      (run_rules pre).1 ++ raised_rule_result name msg :: (run_rules post).1 ∧
    (run_rules (pre ++ { name := name, exec := RuleExec.raised msg } :: post)).2 =
      (run_rules pre).2 ++ (run_rules post).2 ∧
    (raised_rule_result name msg).rule_name = name ∧
    (raised_rule_result name msg).passed = false ∧
    (raised_rule_result name msg).severity = Severity.error ∧
    (raised_rule_result name msg).message = "Rule execution failed: " ++ msg := by
  refine ⟨?_, ?_, rfl, rfl, rfl, rfl⟩ <;>
    · rw [run_rules_append]
      simp [run_rules, process_step]

/-! ## Theorems about add_to_queue -/

/-- C7: a candidate accepted by `add_to_queue` is appended as exactly one
new ExportRecord, whose status is 'approved' (with approved_at and
approved_by set) iff the destination auto-approves and the confidence
meets its threshold, and 'queued' (with no approval fields) otherwise. -/
theorem c7_auto_approval_threshold
    (queue : List Export) (suppressions : List Suppression)
    (config : DestinationConfig) (destination : String)
    (load_id : Option String) (now : Nat) (r : Rec) (counts : Counts)
    (pid : String) (hpid : r.provider_id = some pid) (hne : ¬pid = "")
    (hsup : is_suppressed suppressions r destination = false)
    (hdup : has_active_dup queue pid destination = false) :
    (add_record suppressions config destination load_id now (queue, counts) r).1 =
      queue ++ [make_export config destination load_id now r pid] ∧
    ((make_export config destination load_id now r pid).status = Status.approved ↔
      (config.auto_approve = true ∧
        config.min_confidence_for_auto ≤ r.match_confidence)) ∧
    ((make_export config destination load_id now r pid).status = Status.approved →
      (make_export config destination load_id now r pid).approved_at = some now ∧
      (make_export config destination load_id now r pid).approved_by = some "auto") ∧
    ((make_export config destination load_id now r pid).status ≠ Status.approved →
      (make_export config destination load_id now r pid).status = Status.queued ∧
      (make_export config destination load_id now r pid).approved_at = none ∧
      (make_export config destination load_id now r pid).approved_by = none) := by
  have hiff : auto_approve_decision config r = true ↔
      (config.auto_approve = true ∧
        config.min_confidence_for_auto ≤ r.match_confidence) := by
    simp [auto_approve_decision]
  refine ⟨?_, ?_, ?_, ?_⟩
  · simp [add_record, hpid, hne, hsup, hdup]
  · cases h : auto_approve_decision config r with
    | false =>
      simp only [make_export, h, if_false]
      constructor
      · intro hc
        cases hc
      · intro hc
        rw [hiff.mpr hc] at h
        cases h
    | true =>
      simp only [make_export, h, if_true]
      exact ⟨fun _ => hiff.mp h, fun _ => trivial⟩
  · intro hst
    cases h : auto_approve_decision config r with
    | false => simp [make_export, h] at hst
    | true => simp [make_export, h]
  · intro hst
    cases h : auto_approve_decision config r with
    | false => simp [make_export, h]
    | true => simp [make_export, h] at hst

/-- C7 witness: with the 'instantly' destination
(min_confidence_for_auto = 85, auto_approve on), confidence 84 is queued
and confidence 85 is auto-approved. -/
theorem c7_auto_approval_threshold_witness :
    DESTINATIONS.lookup "instantly" = some
      { name := "instantly", display_name := "Instantly (Cold Email)",
        cost_per_record := 1/100, is_reversible := false, auto_approve := true,
        min_confidence_for_auto := 85, delay_hours := 0,
        rate_limit_per_day := some 500 } ∧
    (make_export
      { name := "instantly", display_name := "Instantly (Cold Email)",
        cost_per_record := 1/100, is_reversible := false, auto_approve := true,
        min_confidence_for_auto := 85, delay_hours := 0,
        rate_limit_per_day := some 500 }
      "instantly" none 3 { provider_id := some "p1", match_confidence := 84 }
      "p1").status = Status.queued ∧
    (make_export
      { name := "instantly", display_name := "Instantly (Cold Email)",
        cost_per_record := 1/100, is_reversible := false, auto_approve := true,
        min_confidence_for_auto := 85, delay_hours := 0,
        rate_limit_per_day := some 500 }
      "instantly" none 3 { provider_id := some "p1", match_confidence := 85 }
      "p1").status = Status.approved := by
  refine ⟨rfl, ?_, ?_⟩
  · have h := c7_auto_approval_threshold [] []
      { name := "instantly", display_name := "Instantly (Cold Email)",
        cost_per_record := 1/100, is_reversible := false, auto_approve := true,
        min_confidence_for_auto := 85, delay_hours := 0,
        rate_limit_per_day := some 500 }
      "instantly" none 3 { provider_id := some "p1", match_confidence := 84 }
      {} "p1" rfl (by decide) (by decide) (by decide)
    refine (h.2.2.2 ?_).1
    intro hc
    exact absurd (h.2.1.mp hc).2 (by decide)
  · have h := c7_auto_approval_threshold [] []
      { name := "instantly", display_name := "Instantly (Cold Email)",
        cost_per_record := 1/100, is_reversible := false, auto_approve := true,
        min_confidence_for_auto := 85, delay_hours := 0,
        rate_limit_per_day := some 500 }
      "instantly" none 3 { provider_id := some "p1", match_confidence := 85 }
      {} "p1" rfl (by decide) (by decide) (by decide)
    exact h.2.1.mpr ⟨rfl, by decide⟩

theorem add_record_shape (suppressions : List Suppression)
    (config : DestinationConfig) (destination : String)
    (load_id : Option String) (now : Nat) (q0 : List Export) (c0 : Counts)
    (r : Rec) :
    (∃ e, add_record suppressions config destination load_id now (q0, c0) r =
      (q0 ++ [e],
       { queued := c0.queued + 1,
         auto_approved := c0.auto_approved +
           (if auto_approve_decision config r then 1 else 0),
         suppressed := c0.suppressed, skipped := c0.skipped })) ∨
    add_record suppressions config destination load_id now (q0, c0) r =
      (q0, { queued := c0.queued, auto_approved := c0.auto_approved,
             suppressed := c0.suppressed + 1, skipped := c0.skipped }) ∨
    add_record suppressions config destination load_id now (q0, c0) r =
      (q0, { queued := c0.queued, auto_approved := c0.auto_approved,
             suppressed := c0.suppressed, skipped := c0.skipped + 1 }) := by
  rw [add_record]
  cases hr : r.provider_id with
  | none => right; right; rfl
  | some pid =>
    by_cases h1 : pid = ""
    · right; right; simp [h1]
    · simp only [h1, if_false]
      by_cases h2 : is_suppressed suppressions r destination
      · right; left; simp [h2]
      · simp only [h2, if_false]
        by_cases h3 : has_active_dup q0 pid destination
        · right; right; simp [h3]
        · left
          exact ⟨make_export config destination load_id now r pid, by simp [h3]⟩

theorem add_loop_spec (suppressions : List Suppression)
    (config : DestinationConfig) (destination : String)
    (load_id : Option String) (now : Nat) :
    ∀ (records : List Rec) (q0 : List Export) (c0 : Counts),
      ((records.foldl (add_record suppressions config destination load_id now)
          (q0, c0)).1).length + c0.queued =
        q0.length +
          (records.foldl (add_record suppressions config destination load_id now)
            (q0, c0)).2.queued ∧
      (records.foldl (add_record suppressions config destination load_id now)
          (q0, c0)).2.auto_approved + c0.queued ≤
        (records.foldl (add_record suppressions config destination load_id now)
          (q0, c0)).2.queued + c0.auto_approved ∧
      (records.foldl (add_record suppressions config destination load_id now)
          (q0, c0)).2.queued +
        (records.foldl (add_record suppressions config destination load_id now)
          (q0, c0)).2.suppressed +
        (records.foldl (add_record suppressions config destination load_id now)
          (q0, c0)).2.skipped =
        c0.queued + c0.suppressed + c0.skipped + records.length := by
  intro records
  induction records with
  | nil =>
    intro q0 c0
    simp only [List.foldl_nil, List.length_nil]
    refine ⟨trivial, by omega, by omega⟩
  | cons r rest ih =>
    intro q0 c0
    rw [List.foldl_cons]
    have ht : (if auto_approve_decision config r then 1 else 0) ≤ 1 := by
      split <;> omega
    rcases add_record_shape suppressions config destination load_id now q0 c0 r with
      ⟨e, he⟩ | he | he <;> rw [he] <;> dsimp only [List.length_cons]
    · have h' := ih (q0 ++ [e])
        { queued := c0.queued + 1,
          auto_approved := c0.auto_approved +
            (if auto_approve_decision config r then 1 else 0),
          suppressed := c0.suppressed, skipped := c0.skipped }
      dsimp only at h'
      rw [List.length_append, List.length_singleton] at h'
      omega
    · have h' := ih q0
        { queued := c0.queued, auto_approved := c0.auto_approved,
          suppressed := c0.suppressed + 1, skipped := c0.skipped }
      dsimp only at h'
      omega
    · have h' := ih q0
        { queued := c0.queued, auto_approved := c0.auto_approved,
          suppressed := c0.suppressed, skipped := c0.skipped + 1 }
      dsimp only at h'
      omega

/-- C10: over one `add_to_queue` call, `queued` counts every
ExportRecord created (auto-approved ones included), `auto_approved`
never exceeds `queued`, and queued + suppressed + skipped partitions the
input records. -/
theorem c10_queued_counts_created (queue : List Export)
    (suppressions : List Suppression) (records : List Rec)
    (destination : String) (load_id : Option String) (now : Nat)
    (q' : List Export) (c : Counts)
    (h : add_to_queue queue suppressions records destination load_id now =
      Except.ok (q', c)) :
    q'.length = queue.length + c.queued ∧
    c.auto_approved ≤ c.queued ∧
    c.queued + c.suppressed + c.skipped = records.length := by
  rw [add_to_queue] at h
  cases hl : DESTINATIONS.lookup destination with
  | none => rw [hl] at h; cases h
  | some config =>
    rw [hl] at h
    have h2 : Except.ok (ε := String)
        (records.foldl (add_record suppressions config destination load_id now)
          (queue, {})) = Except.ok (q', c) := h
    injection h2 with h3
    have := add_loop_spec suppressions config destination load_id now records queue {}
    rw [h3] at this
    simpa using this

/-- C10 witness: a call with one accepted and one skipped record. -/
theorem c10_queued_counts_created_witness :
    (1 : Nat) = 0 + 1 ∧ (0 : Nat) ≤ 1 ∧ (1 : Nat) + 0 + 1 = 2 := by
  have h := c10_queued_counts_created [] [] [{ provider_id := some "p1" }, {}]
    "ghl" none 0
    [{ export_id := "p1-ghl-0", provider_id := "p1", destination := "ghl",
       payload := { provider_id := some "p1" }, data_load_id := none,
       match_confidence := 0, requires_approval := true,
       status := Status.queued, approved_at := none, approved_by := none,
       scheduled_send_at := none, queued_at := 0, created_at := 0,
       updated_at := 0 }]
    { queued := 1, auto_approved := 0, suppressed := 0, skipped := 1 }
    rfl
  exact ⟨h.1, h.2.1, h.2.2⟩

theorem status_step_ok_trans :
    ∀ a b c : Status, status_step_ok a b → status_step_ok b c →
      status_step_ok a c := by
  decide

theorem status_step_ok_active :
    ∀ old new : Status, status_step_ok old new →
      is_active_status new = true → is_active_status old = true := by
  decide

theorem evolves_refl (e : Export) : evolves e e :=
  ⟨rfl, rfl, Or.inl rfl⟩

theorem forall₂_evolves_refl (l : List Export) : List.Forall₂ evolves l l := by
  induction l with
  | nil => exact List.Forall₂.nil
  | cons e rest ih => exact List.Forall₂.cons (evolves_refl e) ih

theorem forall₂_evolves_trans {a b c : List Export}
    (h1 : List.Forall₂ evolves a b) (h2 : List.Forall₂ evolves b c) :
    List.Forall₂ evolves a c := by
  induction h1 generalizing c with
  | nil =>
    cases h2
    exact List.Forall₂.nil
  | cons hx hrest ih =>
    cases h2 with
    | cons hy hrest2 =>
      exact List.Forall₂.cons
        ⟨hy.1.trans hx.1, hy.2.1.trans hx.2.1,
          status_step_ok_trans _ _ _ hx.2.2 hy.2.2⟩
        (ih hrest2)

theorem forall₂_evolves_mem {q q' : List Export}
    (h : List.Forall₂ evolves q q') {b : Export} (hb : b ∈ q') :
    ∃ a ∈ q, evolves a b := by
  induction h with
  | nil => cases hb
  | cons hx hrest ih =>
    rcases List.mem_cons.mp hb with hb | hb
    · exact ⟨_, List.mem_cons_self _ _, hb ▸ hx⟩
    · obtain ⟨a, ha, hab⟩ := ih hb
      exact ⟨a, List.mem_cons_of_mem _ ha, hab⟩

theorem noActiveDup_evolves {q q' : List Export}
    (h : List.Forall₂ evolves q q') (hq : NoActiveDup q) : NoActiveDup q' := by
  induction h with
  | nil => exact List.Pairwise.nil
  | cons hx hrest ih =>
    cases hq with
    | cons h1 h2 =>
      refine List.Pairwise.cons ?_ (ih h2)
      intro b' hb' hconf
      obtain ⟨b, hbmem, hb⟩ := forall₂_evolves_mem hrest hb'
      apply h1 b hbmem
      refine ⟨status_step_ok_active _ _ hx.2.2 hconf.1,
        status_step_ok_active _ _ hb.2.2 hconf.2.1, ?_, ?_⟩
      · rw [← hx.1, ← hb.1]; exact hconf.2.2.1
      · rw [← hx.2.1, ← hb.2.1]; exact hconf.2.2.2

theorem update_first_evolves (q : List Export) (export_id : String)
    (f : Export → Export) (hf : ∀ e, evolves e (f e)) :
    List.Forall₂ evolves q (update_first q export_id f) := by
  induction q with
  | nil => exact List.Forall₂.nil
  | cons e rest ih =>
    rw [update_first]
    by_cases h : e.export_id = export_id
    · simp only [h, if_true]
      exact List.Forall₂.cons (hf e) (forall₂_evolves_refl rest)
    · simp only [h, if_false]
      exact List.Forall₂.cons (evolves_refl e) ih

theorem record_sent_evolves (q : List Export) (history : List HistEntry)
    (export_id : String) (external_id : Option String)
    (error : Option String) (now : Nat) :
    List.Forall₂ evolves q (record_sent q history export_id external_id error now).1 := by
  induction q generalizing history with
  | nil => exact List.Forall₂.nil
  | cons e rest ih =>
    rw [record_sent]
    by_cases h : e.export_id = export_id
    · simp only [h, if_true]
      by_cases herr : opt_truthy error = true
      · simp only [herr, if_true]
        exact List.Forall₂.cons ⟨rfl, rfl, Or.inr (Or.inr (Or.inr (Or.inr rfl)))⟩
          (forall₂_evolves_refl rest)
      · simp only [Bool.not_eq_true] at herr
        simp only [herr, Bool.false_eq_true, if_false]
        exact List.Forall₂.cons ⟨rfl, rfl, Or.inr (Or.inr (Or.inr (Or.inl rfl)))⟩
          (forall₂_evolves_refl rest)
    · simp only [h, if_false]
      exact List.Forall₂.cons (evolves_refl e) (ih history)

theorem approve_hits_queued {export_ids : Option (List String)}
    {destination : Option String} {min_confidence : Int} {e : Export}
    (h : approve_hits export_ids destination min_confidence e = true) :
    e.status = .queued := by
  by_cases hs : e.status = .queued
  · exact hs
  · simp [approve_hits, hs] at h

theorem approve_evolves (q : List Export) (export_ids : Option (List String))
    (destination : Option String) (min_confidence : Int) (approver : String)
    (now : Nat) :
    List.Forall₂ evolves q
      (approve_exports q export_ids destination min_confidence approver now).1 := by
  rw [approve_exports]
  induction q with
  | nil => exact List.Forall₂.nil
  | cons e rest ih =>
    rw [List.map_cons]
    refine List.Forall₂.cons ?_ ih
    by_cases h : approve_hits export_ids destination min_confidence e = true
    · simp only [h, if_true]
      exact ⟨rfl, rfl, Or.inr (Or.inl ⟨approve_hits_queued h, rfl⟩)⟩
    · simp only [h, if_false]
      exact evolves_refl e

theorem cancel_inner_evolves (pending : List Export) (reason : String)
    (now : Nat) :
    ∀ acc : List Export × Nat,
      List.Forall₂ evolves acc.1
        ((pending.foldl
          (fun acc2 e =>
            (update_first acc2.1 e.export_id (cancel_update reason now),
             acc2.2 + 1)) acc).1) := by
  induction pending with
  | nil => intro acc; exact forall₂_evolves_refl acc.1
  | cons p rest ih =>
    intro acc
    rw [List.foldl_cons]
    refine forall₂_evolves_trans ?_ (ih _)
    exact update_first_evolves acc.1 p.export_id (cancel_update reason now)
      (fun e => ⟨rfl, rfl, Or.inr (Or.inr (Or.inl rfl))⟩)

theorem cancel_outer_evolves (load_id reason : String) (now : Nat) :
    ∀ (sts : List Status) (acc : List Export × Nat),
      List.Forall₂ evolves acc.1
        ((sts.foldl
          (fun acc st =>
            let pending := exports_for_load acc.1 load_id st
            pending.foldl
              (fun acc2 e =>
                (update_first acc2.1 e.export_id (cancel_update reason now),
                 acc2.2 + 1)) acc) acc).1) := by
  intro sts
  induction sts with
  | nil => intro acc; exact forall₂_evolves_refl acc.1
  | cons st rest ih =>
    intro acc
    rw [List.foldl_cons]
    exact forall₂_evolves_trans
      (cancel_inner_evolves (exports_for_load acc.1 load_id st) reason now acc)
      (ih _)

theorem cancel_phase_evolves (exports : List Export) (load_id reason : String)
    (now : Nat) :
    List.Forall₂ evolves exports (cancel_phase exports load_id reason now).1 := by
  rw [cancel_phase]
  exact cancel_outer_evolves load_id reason now _ (exports, 0)

theorem reverse_step_evolves (reason : String) (oracle : Export → Bool)
    (now : Nat) (acc : List Export × Nat × List ReversalFailure) (e : Export) :
    List.Forall₂ evolves acc.1 (reverse_step reason oracle now acc e).1 := by
  rw [reverse_step]
  cases hl : DESTINATION_HANDLERS.lookup e.destination with
  | none => exact forall₂_evolves_refl acc.1
  | some h =>
    by_cases hrev : h.is_reversible = true
    · simp only [hrev, Bool.not_true, Bool.false_eq_true, if_false]
      by_cases hat : attempt_reverse oracle e = true
      · simp only [hat, if_true]
        exact update_first_evolves acc.1 e.export_id
          (reversal_update reason now)
          (fun e0 => ⟨rfl, rfl, Or.inl rfl⟩)
      · simp only [hat, if_false]
        exact forall₂_evolves_refl acc.1
    · simp only [Bool.not_eq_true] at hrev
      simp only [hrev, Bool.not_false, if_true]
      exact forall₂_evolves_refl acc.1

theorem reverse_fold_evolves (sent_exports : List Export) (reason : String)
    (oracle : Export → Bool) (now : Nat) :
    ∀ acc : List Export × Nat × List ReversalFailure,
      List.Forall₂ evolves acc.1
        ((sent_exports.foldl (reverse_step reason oracle now) acc).1) := by
  induction sent_exports with
  | nil => intro acc; exact forall₂_evolves_refl acc.1
  | cons e rest ih =>
    intro acc
    rw [List.foldl_cons]
    exact forall₂_evolves_trans (reverse_step_evolves reason oracle now acc e)
      (ih _)

theorem reverse_phase_evolves (exports : List Export) (load_id reason : String)
    (oracle : Export → Bool) (now : Nat) :
    List.Forall₂ evolves exports
      (reverse_phase exports load_id reason oracle now).1 := by
  rw [reverse_phase]
  exact reverse_fold_evolves _ reason oracle now (exports, 0, [])

theorem quarantine_evolves (loads : List LoadRec) (exports : List Export)
    (load_id reason : String) (reverse_exports : Bool)
    (oracle : Export → Bool) (now : Nat) :
    List.Forall₂ evolves exports
      (quarantine_load loads exports load_id reason reverse_exports oracle now).2.1 := by
  rw [quarantine_load]
  by_cases hrev : reverse_exports = true
  · simp only [hrev, if_true]
    exact forall₂_evolves_trans (cancel_phase_evolves exports load_id reason now)
      (reverse_phase_evolves _ load_id reason oracle now)
  · simp only [Bool.not_eq_true] at hrev
    simp only [hrev, Bool.false_eq_true, if_false]
    exact cancel_phase_evolves exports load_id reason now

theorem add_loop_prefix (suppressions : List Suppression)
    (config : DestinationConfig) (destination : String)
    (load_id : Option String) (now : Nat) :
    ∀ (records : List Rec) (q0 : List Export) (c0 : Counts),
      ∃ t, (records.foldl (add_record suppressions config destination load_id now)
        (q0, c0)).1 = q0 ++ t := by
  intro records
  induction records with
  | nil =>
    intro q0 c0
    exact ⟨[], by simp⟩
  | cons r rest ih =>
    intro q0 c0
    rw [List.foldl_cons]
    rcases add_record_shape suppressions config destination load_id now q0 c0 r with
      ⟨e, he⟩ | he | he <;> rw [he]
    · obtain ⟨t, ht⟩ := ih (q0 ++ [e]) _
      exact ⟨[e] ++ t, by rw [ht, List.append_assoc]⟩
    · exact ih q0 _
    · exact ih q0 _

theorem add_loop_noDup (suppressions : List Suppression)
    (config : DestinationConfig) (destination : String)
    (load_id : Option String) (now : Nat) :
    ∀ (records : List Rec) (q0 : List Export) (c0 : Counts),
      NoActiveDup q0 →
      NoActiveDup ((records.foldl
        (add_record suppressions config destination load_id now) (q0, c0)).1) := by
  intro records
  induction records with
  | nil => intro q0 c0 h0; simpa using h0
  | cons r rest ih =>
    intro q0 c0 h0
    rw [List.foldl_cons, add_record]
    cases hr : r.provider_id with
    | none => exact ih q0 _ h0
    | some pid =>
      by_cases h1 : pid = ""
      · simp only [h1, if_true]
        exact ih q0 _ h0
      · simp only [h1, if_false]
        by_cases h2 : is_suppressed suppressions r destination = true
        · simp only [h2, if_true]
          exact ih q0 _ h0
        · simp only [Bool.not_eq_true] at h2
          simp only [h2, Bool.false_eq_true, if_false]
          by_cases h3 : has_active_dup q0 pid destination = true
          · simp only [h3, if_true]
            exact ih q0 _ h0
          · simp only [Bool.not_eq_true] at h3
            simp only [h3, Bool.false_eq_true, if_false]
            refine ih _ _ ?_
            rw [NoActiveDup, List.pairwise_append]
            refine ⟨h0, List.pairwise_singleton _ _, ?_⟩
            intro a ha b hb hconf
            rw [List.mem_singleton] at hb
            subst hb
            have hdup : has_active_dup q0 pid destination = true := by
              rw [has_active_dup, List.any_eq_true]
              refine ⟨a, ha, ?_⟩
              have hpid : a.provider_id = pid := hconf.2.2.1
              have hdest : a.destination = destination := hconf.2.2.2
              simp [hpid, hdest, hconf.1]
            rw [h3] at hdup
            cases hdup

theorem queue_step_noDup {q q' : List Export} (hs : QueueStep q q')
    (hq : NoActiveDup q) : NoActiveDup q' := by
  cases hs with
  | add q suppressions records destination load_id now q' c h =>
    rw [add_to_queue] at h
    cases hl : DESTINATIONS.lookup destination with
    | none => rw [hl] at h; cases h
    | some config =>
      rw [hl] at h
      have h2 : Except.ok (ε := String)
          (records.foldl (add_record suppressions config destination load_id now)
            (q, {})) = Except.ok (q', c) := h
      injection h2 with h3
      have := add_loop_noDup suppressions config destination load_id now records q {} hq
      rw [h3] at this
      exact this
  | approve q export_ids destination min_confidence approver now =>
    exact noActiveDup_evolves (approve_evolves q export_ids destination
      min_confidence approver now) hq
  | send_outcome q history export_id external_id error now =>
    exact noActiveDup_evolves (record_sent_evolves q history export_id
      external_id error now) hq
  | quarantine loads q load_id reason reverse_exports oracle now =>
    exact noActiveDup_evolves (quarantine_evolves loads q load_id reason
      reverse_exports oracle now) hq

/-- C2: every queue state reachable through the exposed operations
satisfies the dedup invariant — no two active (queued/approved/scheduled)
ExportRecords for the same (provider_id, destination) pair — and a
candidate arriving while an active record for its pair exists is counted
as skipped with no record created. -/
theorem c2_dedup_invariant :
    (∀ q, ReachableQueue q → NoActiveDup q) ∧
    (∀ (queue : List Export) (counts : Counts)
        (suppressions : List Suppression) (config : DestinationConfig)
        (destination : String) (load_id : Option String) (now : Nat)
        (r : Rec) (pid : String),
      r.provider_id = some pid → ¬pid = "" →
      is_suppressed suppressions r destination = false →
      has_active_dup queue pid destination = true →
      add_record suppressions config destination load_id now (queue, counts) r =
        (queue, { counts with skipped := counts.skipped + 1 })) := by
  constructor
  · intro q h
    induction h with
    | empty => exact List.Pairwise.nil
    | step hq hs ih => exact queue_step_noDup hs ih
  · intro queue counts suppressions config destination load_id now r pid
      hpid h1 h2 h3
    simp [add_record, hpid, h1, h2, h3]

/-- C3 counterexample: `record_sent` does not guard on the current
status, so from a reachable state whose only record is cancelled, one
exposed operation moves that record to sent — a transition the claimed
forward-or-divert relation forbids. -/
theorem c3_counterexample_cancelled_to_sent :
    ReachableQueue c3_q2 ∧
    QueueStep c3_q2 c3_q3 ∧
    c3_q2.map (fun e => e.status) = [Status.cancelled] ∧
    c3_q3.map (fun e => e.status) = [Status.sent] ∧
    claimed_status_ok Status.cancelled Status.sent = false := by
  have h1 : ReachableQueue c3_q1 :=
    ReachableQueue.step ReachableQueue.empty
      (QueueStep.add [] [] [{ provider_id := some "p1" }] "ghl" (some "L1") 0
        c3_q1 { queued := 1, auto_approved := 0, suppressed := 0, skipped := 0 }
        rfl)
  have h2 : ReachableQueue c3_q2 :=
    ReachableQueue.step h1
      (QueueStep.quarantine [] c3_q1 "L1" "bad" false (fun _ => false) 1)
  have h3 : QueueStep c3_q2 c3_q3 :=
    QueueStep.send_outcome c3_q2 [] "p1-ghl-0" (some "X") none 2
  exact ⟨h2, h3, rfl, rfl, rfl⟩

/-- C3 amended: across the exposed operations, an existing record's
status either stays, moves queued→approved, or is overwritten to
cancelled/sent/failed; in particular no record ever returns to queued,
approved or scheduled from a later state.  (`record_sent` does not guard
on the current status, so cancelled/failed records can still be
overwritten to sent or failed.) -/
theorem c3_status_forward_only (q q' : List Export) (hstep : QueueStep q q') :
    q.length ≤ q'.length ∧
    ∀ (i : Nat) (h1 : i < q.length) (h2 : i < q'.length),
      status_step_ok ((q.get ⟨i, h1⟩).status) ((q'.get ⟨i, h2⟩).status) := by
  have key : (∃ t, q' = q ++ t) ∨ List.Forall₂ evolves q q' := by
    cases hstep with
    | add q suppressions records destination load_id now q' c h =>
      left
      rw [add_to_queue] at h
      cases hl : DESTINATIONS.lookup destination with
      | none => rw [hl] at h; cases h
      | some config =>
        rw [hl] at h
        have h2 : Except.ok (ε := String)
            (records.foldl (add_record suppressions config destination load_id now)
              (q, {})) = Except.ok (q', c) := h
        injection h2 with h3
        obtain ⟨t, ht⟩ := add_loop_prefix suppressions config destination
          load_id now records q {}
        have h4 : (records.foldl
            (add_record suppressions config destination load_id now)
            (q, {})).1 = q' := congrArg Prod.fst h3
        exact ⟨t, by rw [← h4]; exact ht⟩
    | approve q export_ids destination min_confidence approver now =>
      exact Or.inr (approve_evolves q export_ids destination min_confidence
        approver now)
    | send_outcome q history export_id external_id error now =>
      exact Or.inr (record_sent_evolves q history export_id external_id
        error now)
    | quarantine loads q load_id reason reverse_exports oracle now =>
      exact Or.inr (quarantine_evolves loads q load_id reason reverse_exports
        oracle now)
  rcases key with ⟨t, ht⟩ | hf
  · subst ht
    refine ⟨by simp, ?_⟩
    intro i h1 h2
    have : (q ++ t).get ⟨i, h2⟩ = q.get ⟨i, h1⟩ := by
      simp [List.getElem_append_left h1]
    rw [this]
    exact Or.inl rfl
  · rw [List.forall₂_iff_get] at hf
    exact ⟨hf.1.le, fun i h1 h2 => (hf.2 i h1 h2).2.2⟩

/-- C3 witness: the amended theorem applied to the concrete
`record_sent` step of the counterexample state. -/
theorem c3_status_forward_only_witness :
    c3_q2.length ≤ c3_q3.length ∧
    status_step_ok Status.cancelled Status.sent := by
  have h := c3_status_forward_only c3_q2 c3_q3
    (QueueStep.send_outcome c3_q2 [] "p1-ghl-0" (some "X") none 2)
  exact ⟨h.1, h.2 0 (by decide) (by decide)⟩

/-- C2 witness: the invariant at a concrete reachable one-record state,
and a concrete duplicate enqueue being skipped. -/
theorem c2_dedup_invariant_witness :
    NoActiveDup c3_q1 ∧
    add_record []
      { name := "ghl", display_name := "GoHighLevel CRM", cost_per_record := 0,
        is_reversible := true, auto_approve := true,
        min_confidence_for_auto := 70, delay_hours := 0 }
      "ghl" (some "L1") 7 (c3_q1, {}) { provider_id := some "p1" } =
      (c3_q1, { queued := 0, auto_approved := 0, suppressed := 0, skipped := 1 }) := by
  constructor
  · exact c2_dedup_invariant.1 c3_q1
      (ReachableQueue.step ReachableQueue.empty
        (QueueStep.add [] [] [{ provider_id := some "p1" }] "ghl" (some "L1") 0
          c3_q1 { queued := 1, auto_approved := 0, suppressed := 0, skipped := 0 }
          rfl))
  · exact c2_dedup_invariant.2 c3_q1 {} []
      { name := "ghl", display_name := "GoHighLevel CRM", cost_per_record := 0,
        is_reversible := true, auto_approve := true,
        min_confidence_for_auto := 70, delay_hours := 0 }
      "ghl" (some "L1") 7 { provider_id := some "p1" } "p1" rfl
      (by decide) (by decide) (by decide)

/-- C4: for a load with 3 queued, 2 approved and 1 sent ExportRecord,
quarantine without reversal cancels exactly the 5 pending records and
leaves the sent one unchanged; with reversal against a reversible
destination whose handler succeeds it reverses the sent record with zero
failures; against a non-reversible destination it records exactly one
reversal failure. -/
theorem c4_quarantine_cascade :
    (quarantine_load [] (c4_exports "ghl") "L1" "bad" false
      (fun _ => true) 5).2.2.exports_cancelled = 5 ∧
    (quarantine_load [] (c4_exports "ghl") "L1" "bad" false
      (fun _ => true) 5).2.2.exports_reversed = 0 ∧
    (quarantine_load [] (c4_exports "ghl") "L1" "bad" false
      (fun _ => true) 5).2.2.reversal_failures = [] ∧
    ((quarantine_load [] (c4_exports "ghl") "L1" "bad" false
      (fun _ => true) 5).2.1.filter fun e => e.status == Status.sent) =
      [sample_export "e6" "p6" "ghl" (some "L1") .sent (some "X")] ∧
    (quarantine_load [] (c4_exports "ghl") "L1" "bad" true
      (fun _ => true) 5).2.2.exports_cancelled = 5 ∧
    (quarantine_load [] (c4_exports "ghl") "L1" "bad" true
      (fun _ => true) 5).2.2.exports_reversed = 1 ∧
    (quarantine_load [] (c4_exports "ghl") "L1" "bad" true
      (fun _ => true) 5).2.2.reversal_failures = [] ∧
    (quarantine_load [] (c4_exports "instantly") "L1" "bad" true
      (fun _ => true) 5).2.2.exports_reversed = 0 ∧
    (quarantine_load [] (c4_exports "instantly") "L1" "bad" true
      (fun _ => true) 5).2.2.exports_failed_reversal = 1 := by
  decide

theorem reverse_step_failures_mono (reason : String) (oracle : Export → Bool)
    (now : Nat) (acc : List Export × Nat × List ReversalFailure) (e : Export) :
    ∃ s, (reverse_step reason oracle now acc e).2.2 = acc.2.2 ++ s := by
  rw [reverse_step]
  cases hl : DESTINATION_HANDLERS.lookup e.destination with
  | none => exact ⟨[], by simp⟩
  | some h =>
    by_cases hrev : h.is_reversible = true
    · simp only [hrev, Bool.not_true, Bool.false_eq_true, if_false]
      by_cases hat : attempt_reverse oracle e = true
      · simp only [hat, if_true]
        exact ⟨[], by simp⟩
      · simp only [hat, if_false]
        exact ⟨_, rfl⟩
    · simp only [Bool.not_eq_true] at hrev
      simp only [hrev, Bool.not_false, if_true]
      exact ⟨_, rfl⟩

theorem reverse_fold_failures_mono (reason : String) (oracle : Export → Bool)
    (now : Nat) :
    ∀ (l : List Export) (acc : List Export × Nat × List ReversalFailure),
      ∃ t, (l.foldl (reverse_step reason oracle now) acc).2.2 = acc.2.2 ++ t := by
  intro l
  induction l with
  | nil => intro acc; exact ⟨[], by simp⟩
  | cons e rest ih =>
    intro acc
    rw [List.foldl_cons]
    obtain ⟨s, hs⟩ := reverse_step_failures_mono reason oracle now acc e
    obtain ⟨t, ht⟩ := ih (reverse_step reason oracle now acc e)
    exact ⟨s ++ t, by rw [ht, hs, List.append_assoc]⟩

theorem reverse_step_failure_mem (reason : String) (oracle : Export → Bool)
    (now : Nat) (acc : List Export × Nat × List ReversalFailure) (e : Export)
    (h : HandlerCfg)
    (hh : DESTINATION_HANDLERS.lookup e.destination = some h)
    (hfail : h.is_reversible = false ∨ attempt_reverse oracle e = false) :
    ∃ f ∈ (reverse_step reason oracle now acc e).2.2,
      f.export_id = e.export_id ∧ f.destination = e.destination := by
  rw [reverse_step, hh]
  by_cases hrev : h.is_reversible = true
  · have hat : attempt_reverse oracle e = false := by
      rcases hfail with h1 | h1
      · rw [hrev] at h1; cases h1
      · exact h1
    simp only [hrev, Bool.not_true, Bool.false_eq_true, if_false, hat]
    exact ⟨_, List.mem_append_right _ (List.mem_singleton_self _), rfl, rfl⟩
  · simp only [Bool.not_eq_true] at hrev
    simp only [hrev, Bool.not_false, if_true]
    exact ⟨_, List.mem_append_right _ (List.mem_singleton_self _), rfl, rfl⟩

theorem reverse_fold_failures (reason : String) (oracle : Export → Bool)
    (now : Nat) :
    ∀ (l : List Export) (acc : List Export × Nat × List ReversalFailure)
      (e : Export), e ∈ l →
      ∀ h : HandlerCfg, DESTINATION_HANDLERS.lookup e.destination = some h →
      (h.is_reversible = false ∨ attempt_reverse oracle e = false) →
      ∃ f ∈ (l.foldl (reverse_step reason oracle now) acc).2.2,
        f.export_id = e.export_id ∧ f.destination = e.destination := by
  intro l
  induction l with
  | nil => intro acc e he; cases he
  | cons x rest ih =>
    intro acc e he h hh hfail
    rw [List.foldl_cons]
    rcases List.mem_cons.mp he with he | he
    · subst he
      obtain ⟨f, hf, hf2⟩ := reverse_step_failure_mem reason oracle now acc e
        h hh hfail
      obtain ⟨t, ht⟩ := reverse_fold_failures_mono reason oracle now rest
        (reverse_step reason oracle now acc e)
      exact ⟨f, ht ▸ List.mem_append_left t hf, hf2⟩
    · exact ih _ e he h hh hfail

/-- C5 amended: every sent export of the quarantined load whose
destination has a registered handler and whose reversal does not succeed
(non-reversible destination or failed handler call) appears in the
returned reversal_failures; an export whose destination has no handler
at all is skipped without being recorded. -/
theorem c5_reversal_failures_recorded (loads : List LoadRec)
    (exports : List Export) (load_id reason : String)
    (oracle : Export → Bool) (now : Nat) (e : Export) (h : HandlerCfg)
    (he : e ∈ exports_for_load (cancel_phase exports load_id reason now).1
      load_id .sent)
    (hh : DESTINATION_HANDLERS.lookup e.destination = some h)
    (hfail : h.is_reversible = false ∨ attempt_reverse oracle e = false) :
    ∃ f ∈ (quarantine_load loads exports load_id reason true oracle
      now).2.2.reversal_failures,
      f.export_id = e.export_id ∧ f.destination = e.destination := by
  show ∃ f ∈ (reverse_phase (cancel_phase exports load_id reason now).1
      load_id reason oracle now).2.2, _
  rw [reverse_phase]
  exact reverse_fold_failures reason oracle now _ _ e he h hh hfail

/-- C5 counterexample: quarantining load L9 with reverseExports=true
leaves its sent export un-reversed (no handler for its destination) yet
reports an empty reversal_failures list — the unsuccessful reversal is
omitted from the result. -/
theorem c5_counterexample_no_handler :
    (quarantine_load [] [c5_export] "L9" "bad" true
      (fun _ => true) 7).2.2.reversal_failures = [] ∧
    (quarantine_load [] [c5_export] "L9" "bad" true
      (fun _ => true) 7).2.2.exports_reversed = 0 ∧
    (quarantine_load [] [c5_export] "L9" "bad" true
      (fun _ => true) 7).2.1 = [c5_export] ∧
    c5_export.status = Status.sent ∧
    c5_export.data_load_id = some "L9" ∧
    c5_export.reversed_at = none ∧
    DESTINATION_HANDLERS.lookup c5_export.destination = none := by
  decide

/-- C5 witness: a sent export at the non-reversible 'instantly'
destination is recorded in reversal_failures. -/
theorem c5_reversal_failures_recorded_witness :
    ∃ f ∈ (quarantine_load []
      [sample_export "w5" "pw" "instantly" (some "LW") .sent (some "XW")]
      "LW" "why" true (fun _ => true) 4).2.2.reversal_failures,
      f.export_id = "w5" ∧ f.destination = "instantly" := by
  exact c5_reversal_failures_recorded []
    [sample_export "w5" "pw" "instantly" (some "LW") .sent (some "XW")]
    "LW" "why" (fun _ => true) 4
    (sample_export "w5" "pw" "instantly" (some "LW") .sent (some "XW"))
    { is_reversible := false } (by decide) (by decide) (Or.inl rfl)

/-- C1 counterexample: the same (current, previous) snapshot pair
detected under two run timestamps whose calendar dates differ yields
different event_id sets — event_id embeds the run's date
(`timestamp[:10]` of `datetime.now()`), not a date of the snapshots, so
it is not independent of when detection is executed. -/
theorem c1_counterexample_run_date_dependence :
    event_ids (detect_events c1_current [] "dentist" "2024-01-01T00:00:00") =
      ["NEW_100_2024-01-01"] ∧
    event_ids (detect_events c1_current [] "dentist" "2024-01-02T00:00:00") =
      ["NEW_100_2024-01-02"] ∧
    event_ids (detect_events c1_current [] "dentist" "2024-01-01T00:00:00") ≠
      event_ids (detect_events c1_current [] "dentist" "2024-01-02T00:00:00") := by
  decide

/-- C1 amended: for a fixed snapshot pair, the list of event_ids is a
deterministic function of the rows, the event type, the license number
and the calendar date of the run (`timestamp[:10]`): two runs whose
timestamps share the first 10 characters produce identical event_ids,
so detection re-run on the same calendar day is idempotent on ids. -/
theorem c1_event_ids_same_run_date (current_df previous_df : List TexasRow)
    (professional_type ts1 ts2 : String) (h : ts1.take 10 = ts2.take 10) :
    event_ids (detect_events current_df previous_df professional_type ts1) =
      event_ids (detect_events current_df previous_df professional_type ts2) := by
  have hnew : (detect_new_licenses current_df previous_df professional_type
      ts1).map (fun e => e.event_id) =
      (detect_new_licenses current_df previous_df professional_type ts2).map
        (fun e => e.event_id) := by
    rw [detect_new_licenses, detect_new_licenses, List.map_map, List.map_map]
    apply List.map_congr_left
    intro r hr
    simp only [Function.comp, new_license_event]
    rw [h]
  have hst : (detect_status_changes current_df previous_df professional_type
      ts1).map (fun e => e.event_id) =
      (detect_status_changes current_df previous_df professional_type ts2).map
        (fun e => e.event_id) := by
    rw [detect_status_changes, detect_status_changes, List.map_filterMap,
      List.map_filterMap]
    apply List.filterMap_congr
    intro pc hpc
    dsimp only
    split_ifs <;> simp [status_change_event, h]
  rw [event_ids, event_ids, detect_events, detect_events, List.map_append,
    List.map_append, hnew, hst]

/-- C1 witness: two runs on the same calendar day, at different clock
times, agree on event_ids for a concrete snapshot pair. -/
theorem c1_event_ids_same_run_date_witness :
    event_ids (detect_events c1_current [] "dentist" "2024-01-01T00:00:00") =
      event_ids (detect_events c1_current [] "dentist" "2024-01-01T23:59:59") := by
  exact c1_event_ids_same_run_date c1_current [] "dentist"
    "2024-01-01T00:00:00" "2024-01-01T23:59:59" (by decide)

/-- C6 counterexample: the snapshots differ in the stable identifier
(A1 vs A2 — a reused license number), so keyed on LIC_ID there is one
new record and no join match; the code instead finds no new license and
joins the two different subjects into a REINSTATED event, because both
the set difference and the join are computed on LIC_NBR. -/
theorem c6_counterexample_keyed_on_number :
    new_stable_ids c6_current c6_previous = ["A2"] ∧
    detect_new_licenses c6_current c6_previous "dentist"
      "2024-01-01T00:00:00" = [] ∧
    event_ids (detect_events c6_current c6_previous "dentist"
      "2024-01-01T00:00:00") = ["REINSTATED_100_2024-01-01"] ∧
    c6_current.map (fun r => r.LIC_ID) = [some "A2"] ∧
    c6_previous.map (fun r => r.LIC_ID) = [some "A1"] := by
  decide

theorem lic_nbrs_set_lic_id (g : Option String → Option String)
    (df : List TexasRow) :
    lic_nbrs (df.map (set_lic_id g)) = lic_nbrs df := by
  rw [lic_nbrs, lic_nbrs, List.filterMap_map]
  rfl

theorem merge_set_lic_id (g : Option String → Option String)
    (previous_df current_df : List TexasRow) :
    merge_on_lic_nbr (previous_df.map (set_lic_id g))
        (current_df.map (set_lic_id g)) =
      (merge_on_lic_nbr previous_df current_df).map
        (fun pc => (set_lic_id g pc.1, set_lic_id g pc.2)) := by
  induction previous_df with
  | nil => rfl
  | cons p rest ih =>
    simp only [merge_on_lic_nbr] at ih ⊢
    rw [List.map_cons, List.flatMap_cons, List.flatMap_cons, List.map_append]
    congr 1
    rw [List.filter_map, List.map_map, List.map_map]
    rfl

/-- C6 amended: both the new-license set difference and the
status-change join are computed on the license number column LIC_NBR,
not on the stable identifier: the emitted event_ids are invariant under
arbitrary rewriting of every row's LIC_ID; every NEW_LICENSE event
carries a license number present in the current snapshot but not in the
previous one; and every status-change event either carries a license
number present in both snapshots, or stems from a pandas NaN-keyed join
pair (missing numbers match each other in `pd.merge`) and carries the
string "nan". -/
theorem c6_keys_on_license_number (g : Option String → Option String)
    (current_df previous_df : List TexasRow) (professional_type ts : String) :
    event_ids (detect_events (current_df.map (set_lic_id g))
        (previous_df.map (set_lic_id g)) professional_type ts) =
      event_ids (detect_events current_df previous_df professional_type ts) ∧
    (∀ e ∈ detect_new_licenses current_df previous_df professional_type ts,
      e.license_number ∈ lic_nbrs current_df ∧
        e.license_number ∉ lic_nbrs previous_df) ∧
    (∀ e ∈ detect_status_changes current_df previous_df professional_type ts,
      (e.license_number ∈ lic_nbrs current_df ∧
        e.license_number ∈ lic_nbrs previous_df) ∨
      e.license_number = "nan") := by
  refine ⟨?_, ?_, ?_⟩
  · rw [event_ids, event_ids, detect_events, detect_events, List.map_append,
      List.map_append]
    congr 1
    · rw [detect_new_licenses, detect_new_licenses, lic_nbrs_set_lic_id,
        lic_nbrs_set_lic_id, List.filter_map, List.filter_map, List.map_map,
        List.map_map, List.map_map]
      rfl
    · rw [detect_status_changes, detect_status_changes, merge_set_lic_id,
        List.map_filterMap, List.map_filterMap, List.filterMap_map]
      rfl
  · intro e he
    simp only [detect_new_licenses, List.mem_map, List.mem_filter] at he
    obtain ⟨r, ⟨⟨hrc, hrnew⟩, hract⟩, rfl⟩ := he
    cases hv : r.LIC_NBR with
    | none => rw [hv] at hrnew; cases hrnew
    | some v =>
      rw [hv] at hrnew
      have hmem : v ∈ (lic_nbrs current_df).filter
          fun x => !(lic_nbrs previous_df).contains x := by
        simpa using hrnew
      rw [List.mem_filter] at hmem
      have hln : (new_license_event professional_type ts r).license_number = v := by
        simp [new_license_event, py_str, hv]
      rw [hln]
      refine ⟨hmem.1, ?_⟩
      simpa using hmem.2
  · intro e he
    simp only [detect_status_changes, List.mem_filterMap] at he
    obtain ⟨pc, hpc, heq⟩ := he
    simp only [merge_on_lic_nbr, List.mem_flatMap, List.mem_map,
      List.mem_filter, decide_eq_true_eq] at hpc
    obtain ⟨p, hp, c, ⟨hc, hcond⟩, rfl⟩ := hpc
    cases hv : p.LIC_NBR with
    | none =>
      have hcn : c.LIC_NBR = none := by rw [hv] at hcond; exact hcond.symm
      dsimp only at heq
      split at heq
      · cases heq
      · split at heq
        · injection heq with heq
          subst heq
          right
          simp [status_change_event, py_str, hcn]
        · split at heq
          · injection heq with heq
            subst heq
            right
            simp [status_change_event, py_str, hcn]
          · cases heq
    | some v =>
      have hcnbr : c.LIC_NBR = some v := by rw [hv] at hcond; exact hcond.symm
      have hmemc : v ∈ lic_nbrs current_df := by
        rw [lic_nbrs, List.mem_filterMap]
        exact ⟨c, hc, hcnbr⟩
      have hmemp : v ∈ lic_nbrs previous_df := by
        rw [lic_nbrs, List.mem_filterMap]
        exact ⟨p, hp, hv⟩
      dsimp only at heq
      split at heq
      · cases heq
      · split at heq
        · injection heq with heq
          subst heq
          left
          have hl : (status_change_event "LAPSED" "MEDIUM" "suppress_or_winback"
              professional_type ts p c).license_number = v := by
            simp [status_change_event, py_str, hcnbr]
          rw [hl]
          exact ⟨hmemc, hmemp⟩
        · split at heq
          · injection heq with heq
            subst heq
            left
            have hl : (status_change_event "REINSTATED" "HIGH"
                "reengagement_sequence" professional_type ts p
                c).license_number = v := by
              simp [status_change_event, py_str, hcnbr]
            rw [hl]
            exact ⟨hmemc, hmemp⟩
          · cases heq

/-- C6 witness: the amended theorem applied to the concrete snapshots —
the NEW_LICENSE event of (c6_current, ∅) carries a number present only
in the current snapshot, and the REINSTATED event of
(c6_current, c6_previous) carries a number present in both (its key is
a real license number, so the NaN disjunct does not fire). -/
theorem c6_keys_on_license_number_witness :
    ("100" ∈ lic_nbrs c6_current ∧ "100" ∉ lic_nbrs ([] : List TexasRow)) ∧
    (("100" ∈ lic_nbrs c6_current ∧ "100" ∈ lic_nbrs c6_previous) ∨
      ("100" : String) = "nan") := by
  constructor
  · exact (c6_keys_on_license_number id c6_current [] "dentist"
      "2024-01-01T00:00:00").2.1
      (new_license_event "dentist" "2024-01-01T00:00:00"
        { LIC_ID := some "A2", LIC_NBR := some "100",
          LIC_STA_CDE := some "20", LIC_STA_DESC := some "Active" })
      (by decide)
  · exact (c6_keys_on_license_number id c6_current c6_previous "dentist"
      "2024-01-01T00:00:00").2.2
      (status_change_event "REINSTATED" "HIGH" "reengagement_sequence"
        "dentist" "2024-01-01T00:00:00"
        { LIC_ID := some "A1", LIC_NBR := some "100",
          LIC_STA_CDE := some "60", LIC_STA_DESC := some "Cancelled" }
        { LIC_ID := some "A2", LIC_NBR := some "100",
          LIC_STA_CDE := some "20", LIC_STA_DESC := some "Active" })
      (by decide)

end DentalLeads
